import Mathlib

/-!
Shallow embedding of the description templater of `src/api/analyze-image.js`
(the functions `generateDescription` and `getColorName`), together with proofs
of the specification claims about it.

Modelling conventions:
* JavaScript numbers are modelled as `Rat` (the thresholds and scores compared
  in the source are exact decimals, so exact rational comparison coincides with
  the source's floating-point comparisons on every input used here).
* JavaScript strings are sequences of Unicode characters (`String` as a list
  of `Char`); lengths and indices therefore count code points where
  JavaScript counts UTF-16 code units — the two agree on all text without
  astral (non-BMP) characters, which every statement below uses.
* A JavaScript field access that the source performs without a guard, and that
  throws a `TypeError` when the field is absent (`label.description.toLowerCase()`,
  `landmarks[0].locations[0].latLng.latitude`, and the destructuring
  `const { red, green, blue } = color.color`), is modelled by an `Option`
  field whose `none` case aborts the computation with `Except.error`, mirroring
  the exception that the `try`/`catch` of `generateDescription` intercepts.
  Field accesses that JavaScript silently coerces (an absent `description`
  inside `Array.prototype.join`, which renders as the empty string) are
  modelled by the corresponding total coercion.
-/

/-- One entry of `labelAnnotations`.  `description` is `Option` because the
source dereferences it with `.toLowerCase()` without a guard. -/
structure Label where
  description : Option String := none
  score : Rat := 0
deriving DecidableEq

/-- `latLng` record of a landmark location. -/
structure LatLng where
  latitude : Rat := 0
  longitude : Rat := 0
deriving DecidableEq

/-- One entry of a landmark's `locations` array. -/
structure Location where
  latLng : Option LatLng := none
deriving DecidableEq

/-- One entry of `landmarkAnnotations`. -/
structure Landmark where
  description : String := ""
  locations : List Location := []
deriving DecidableEq

/-- The likelihood scale used by face annotations; `UNKNOWN` also stands for an
absent field (the source only compares against the strings `LIKELY` and
`VERY_LIKELY`, so every other value behaves identically). -/
inductive Likelihood where
  | UNKNOWN
  | VERY_UNLIKELY
  | UNLIKELY
  | POSSIBLE
  | LIKELY
  | VERY_LIKELY
deriving DecidableEq, BEq

/-- One entry of `faceAnnotations`. -/
structure Face where
  joyLikelihood : Likelihood := .UNKNOWN
  sorrowLikelihood : Likelihood := .UNKNOWN
  angerLikelihood : Likelihood := .UNKNOWN
  surpriseLikelihood : Likelihood := .UNKNOWN
deriving DecidableEq

/-- One entry of `localizedObjectAnnotations`. -/
structure DetectedObject where
  name : String := ""
deriving DecidableEq

/-- One entry of `logoAnnotations`. -/
structure Logo where
  description : String := ""
deriving DecidableEq

/-- The `color` record of a dominant-colors entry. -/
structure RGB where
  red : Rat := 0
  green : Rat := 0
  blue : Rat := 0
deriving DecidableEq

/-- One entry of `imagePropertiesAnnotation.dominantColors.colors`.  `color`
is `Option` because the source destructures it without a guard. -/
structure ColorInfo where
  color : Option RGB := none
  score : Rat := 0
deriving DecidableEq

/-- One entry of `textAnnotations`; `description` is `Option` to represent an
absent field (the source guards this access with `?.` and a truthiness test,
so `none` and the empty string both skip the fragment). -/
structure TextAnnotation where
  description : Option String := none
deriving DecidableEq

/-- One entry of `webDetection.webEntities`. -/
structure WebEntity where
  description : String := ""
  score : Rat := 0
deriving DecidableEq

/-- The vision response consumed by `generateDescription`.  Absent arrays are
the empty list (the source normalises them with `|| []`);
`imageQualityAnnotation` carries its `quality` field when present. -/
structure VisionResponse where
  labelAnnotations : List Label := []
  landmarkAnnotations : List Landmark := []
  faceAnnotations : List Face := []
  localizedObjectAnnotations : List DetectedObject := []
  logoAnnotations : List Logo := []
  colorInfo : List ColorInfo := []
  textAnnotations : List TextAnnotation := []
  webEntities : List WebEntity := []
  imageQualityAnnotation : Option Rat := none
deriving DecidableEq

/-- `s.toLowerCase()`: lower-case every character.  `Char.toLower` agrees
with the JavaScript conversion exactly on ASCII characters (A–Z are mapped,
the rest are unchanged); statements about non-concrete strings below are
therefore scoped to ASCII names. -/
def jsToLower (s : String) : String :=
  ⟨s.data.map Char.toLower⟩

/-- Parse a string of decimal digits; used only to recognise canonical
array-index property keys. -/
def strToNat? (s : String) : Option Nat :=
  if s.data ≠ [] ∧ s.data.all Char.isDigit then
    some (s.data.foldl (fun n c => n * 10 + (c.toNat - 48)) 0)
  else none

/-- `Math.abs`. -/
def mathAbs (q : Rat) : Rat :=
  if q < 0 then -q else q

/-- Rational subtraction, written out on numerator and denominator so that the
kernel can evaluate it; `ratSub_eq_sub` below proves it is subtraction. -/
def ratSub (a b : Rat) : Rat :=
  mkRat (a.num * b.den - b.num * a.den) (a.den * b.den)

/-- The decimal constant `n` `/` `d`, written with `mkRat` so that the kernel
can evaluate it; used for the literals `0.4`, `0.5` and `0.8` of the source. -/
def decLit (n : Int) (d : Nat) : Rat := mkRat n d

/-- `decLit 5 10` is the literal `0.5` of the source. -/
theorem decLit_half : decLit 5 10 = 0.5 := by
  rw [decLit, Rat.mkRat_eq_divInt, Rat.divInt_eq_div]; norm_num

/-- `decLit 8 10` is the literal `0.8` of the source. -/
theorem decLit_eight_tenths : decLit 8 10 = 0.8 := by
  rw [decLit, Rat.mkRat_eq_divInt, Rat.divInt_eq_div]; norm_num

/-- `decLit 4 10` is the literal `0.4` of the source. -/
theorem decLit_four_tenths : decLit 4 10 = 0.4 := by
  rw [decLit, Rat.mkRat_eq_divInt, Rat.divInt_eq_div]; norm_num

/-- `mathAbs` is the absolute value. -/
theorem mathAbs_eq_abs (q : Rat) : mathAbs q = |q| := by
  rw [mathAbs]
  split
  · rw [abs_of_neg (by assumption)]
  · rw [abs_of_nonneg (le_of_not_lt (by assumption))]

/-- `ratSub` is subtraction. -/
theorem ratSub_eq_sub (a b : Rat) : ratSub a b = a - b := by
  have ha : ((a.den : Rat)) ≠ 0 := by exact_mod_cast a.den_ne_zero
  have hb : ((b.den : Rat)) ≠ 0 := by exact_mod_cast b.den_ne_zero
  rw [ratSub, Rat.mkRat_eq_divInt, Rat.divInt_eq_div]
  conv_rhs => rw [← Rat.num_div_den a, ← Rat.num_div_den b, div_sub_div _ _ ha hb]
  push_cast
  ring

/-- `getColorName(red, green, blue)` of `src/api/analyze-image.js`, a
first-match-wins decision tree over the three channels. -/
def getColorName (red green blue : Rat) : String :=
  if red > 220 ∧ green > 220 ∧ blue > 220 then "white" else
  if red < 30 ∧ green < 30 ∧ blue < 30 then "black" else
  if red > 200 ∧ green < 70 ∧ blue < 70 then "red" else
  if red < 70 ∧ green > 200 ∧ blue < 70 then "green" else
  if red < 70 ∧ green < 70 ∧ blue > 200 then "blue" else
  if red > 200 ∧ green > 200 ∧ blue < 70 then "yellow" else
  if red > 200 ∧ green < 70 ∧ blue > 200 then "magenta" else
  if red < 70 ∧ green > 200 ∧ blue > 200 then "cyan" else
  if red > 200 ∧ green > 120 ∧ green < 180 ∧ blue < 70 then "orange" else
  if red > 120 ∧ red < 200 ∧ green < 70 ∧ blue > 200 then "purple" else
  if red > 70 ∧ red < 120 ∧ green > 200 ∧ blue < 70 then "lime" else
  if red < 70 ∧ green > 130 ∧ green < 200 ∧ blue > 200 then "teal" else
  if red > 200 ∧ green < 70 ∧ blue > 130 ∧ blue < 200 then "pink" else
  if red > 150 ∧ green > 150 ∧ blue < 70 then "gold" else
  if mathAbs (ratSub red green) < 30 ∧ mathAbs (ratSub red blue) < 30 ∧
     mathAbs (ratSub green blue) < 30 then
    (if red < 80 then "dark gray" else if red < 150 then "gray" else "light gray")
  else
  if red > 130 ∧ red < 200 ∧ green > 70 ∧ green < 130 ∧ blue < 70 then "brown"
  else "mixed"

/-- The closed set of scene-context words scanned for in the labels. -/
def contextWords : List String :=
  ["indoor", "outdoor", "city", "rural", "landscape", "portrait", "closeup", "macro"]

/-- `labels.filter(label => [...].includes(label.description.toLowerCase()))`,
returning the lowered descriptions of the matching labels.  A label whose
`description` is absent makes the filter callback throw, modelled by
`Except.error`. -/
def sceneContexts : List Label → Except Unit (List String)
  | [] => .ok []
  | l :: ls =>
    match l.description with
    | none => .error ()
    | some d =>
      match sceneContexts ls with
      | .error e => .error e
      | .ok rest =>
        .ok (if contextWords.contains (jsToLower d) then jsToLower d :: rest else rest)

/-- The scene-context sentence (step using `contexts[0]`). -/
def sceneFragment (labels : List Label) : Except Unit String :=
  match sceneContexts labels with
  | .error e => .error e
  | .ok [] => .ok ""
  | .ok (c :: _) => .ok ("This appears to be an " ++ c ++ " image. ")

/-- `labels.slice(0, 4).map(label => label.description).join(', ')`; an absent
`description` is rendered by `join` as the empty string. -/
def mainSubjectsFragment (labels : List Label) : String :=
  if labels.isEmpty then ""
  else
    "The image shows " ++
      String.intercalate ", " ((labels.take 4).map (fun l => l.description.getD "")) ++ ". "

/-- Decimal digits of `num / den` (with `num < den`), by long division, one
digit per step of fuel. -/
def fracDigits (den : Nat) : Nat → Nat → String
  | _, 0 => ""
  | num, fuel + 1 =>
    if num = 0 then ""
    else toString (num * 10 / den) ++ fracDigits den (num * 10 % den) fuel

/-- Decimal rendering of a rational, matching JavaScript number-to-string
conversion on the terminating decimals that occur here. -/
def ratToStr (q : Rat) : String :=
  let sign := if q.num < 0 then "-" else ""
  let n := q.num.natAbs
  let d := q.den
  sign ++ toString (n / d) ++
    (if n % d = 0 then "" else "." ++ fracDigits d (n % d) 20)

/-- The coordinate text interpolated into the landmark sentence:
`Math.abs(lat)` / `Math.abs(lng)` with hemisphere words chosen by sign. -/
def coordText (lat lng : Rat) : String :=
  ratToStr (mathAbs lat) ++ "° " ++ (if lat ≥ 0 then "North" else "South") ++ ", " ++
    ratToStr (mathAbs lng) ++ "° " ++ (if lng ≥ 0 then "East" else "West")

/-- The landmark sentence: only the first landmark is used; an absent `latLng`
on its first location makes the unguarded `.latitude` access throw. -/
def landmarkFragment : List Landmark → Except Unit String
  | [] => .ok ""
  | lm :: _ =>
    match lm.locations with
    | [] => .ok ("The image features " ++ lm.description ++ ". ")
    | loc :: _ =>
      match loc.latLng with
      | none => .error ()
      | some ll =>
        .ok ("The image features " ++ lm.description ++
          ", located at approximately " ++ coordText ll.latitude ll.longitude ++ ". ")

/-- Whether a likelihood counts in the emotion tally
(`=== 'VERY_LIKELY' || === 'LIKELY'`). -/
def strongLikelihood (l : Likelihood) : Bool :=
  l == .VERY_LIKELY || l == .LIKELY

/-- Number of faces counted toward joy. -/
def joyCount (faces : List Face) : Nat :=
  (faces.filter (fun f => strongLikelihood f.joyLikelihood)).length

/-- Number of faces counted toward sorrow. -/
def sorrowCount (faces : List Face) : Nat :=
  (faces.filter (fun f => strongLikelihood f.sorrowLikelihood)).length

/-- Number of faces counted toward anger. -/
def angerCount (faces : List Face) : Nat :=
  (faces.filter (fun f => strongLikelihood f.angerLikelihood)).length

/-- Number of faces counted toward surprise. -/
def surpriseCount (faces : List Face) : Nat :=
  (faces.filter (fun f => strongLikelihood f.surpriseLikelihood)).length

/-- The emotion clauses: `Object.entries(emotionCounts)` in insertion order
(joy, sorrow, anger, surprise), filtered to positive counts and rendered with
`joy` relabelled `happy` and a singular verb exactly for count 1. -/
def emotionClauses (faces : List Face) : List String :=
  (([("joy", joyCount faces), ("sorrow", sorrowCount faces),
     ("anger", angerCount faces), ("surprise", surpriseCount faces)]
    : List (String × Nat)).filter (fun p => decide (p.2 > 0))).map
    (fun p =>
      toString p.2 ++ " " ++ (if p.2 == 1 then "appears" else "appear") ++
        " to be " ++ (if p.1 == "joy" then "happy" else p.1))

/-- The person-count sentence, with singular wording exactly for one face. -/
def personCountSentence (n : Nat) : String :=
  "There " ++ (if n == 1 then "is" else "are") ++ " " ++ toString n ++ " " ++
    (if n == 1 then "person" else "people") ++ " in the image. "

/-- The emotion sentence (empty when no emotion has a positive count). -/
def emotionSentence (faces : List Face) : String :=
  if (emotionClauses faces).isEmpty then ""
  else "Of these, " ++ String.intercalate ", " (emotionClauses faces) ++ ". "

/-- The person-count sentence plus the emotion sentence. -/
def facesFragment (faces : List Face) : String :=
  if faces.isEmpty then ""
  else personCountSentence faces.length ++ emotionSentence faces

/-- A value stored in (or read from) the accumulator object of
`objects.reduce((acc, obj) => { acc[obj.name] = (acc[obj.name] || 0) + 1; ... }, {})`.
Ordinary names hold numbers.  A name of an inherited `Object.prototype` data
property (such as `toString`) starts from a truthy function, so
`(acc[name] || 0) + 1` string-concatenates instead of counting; any such
non-numeric value is `poisoned` — its only observable property downstream is
that `count > 1` (a string-to-number JavaScript comparison via `NaN`) is
false. -/
inductive JsValue where
  | num (n : Nat)
  | poisoned
deriving DecidableEq

/-- The enumerable-by-lookup data properties inherited from
`Object.prototype` by the accumulator object literal `{}`. -/
def protoDataKeys : List String :=
  ["constructor", "toString", "toLocaleString", "valueOf", "hasOwnProperty",
   "isPrototypeOf", "propertyIsEnumerable", "__defineGetter__",
   "__defineSetter__", "__lookupGetter__", "__lookupSetter__"]

/-- Own-property read on the accumulator (association list in property
creation order). -/
def getOwn : List (String × JsValue) → String → Option JsValue
  | [], _ => none
  | p :: ps, k => if p.1 == k then some p.2 else getOwn ps k

/-- Own-property write on the accumulator: an existing key keeps its
position, a new key is appended. -/
def setOwn : List (String × JsValue) → String → JsValue → List (String × JsValue)
  | [], k, v => [(k, v)]
  | p :: ps, k, v => if p.1 == k then (p.1, v) :: ps else p :: setOwn ps k v

/-- The value `acc[name]` reads before the increment: the own property if
present, else the inherited `Object.prototype` data property (truthy, hence
`poisoned`), else `undefined` (`none`). -/
def readForIncr (acc : List (String × JsValue)) (name : String) : Option JsValue :=
  match getOwn acc name with
  | some v => some v
  | none => if protoDataKeys.contains name then some JsValue.poisoned else none

/-- `(acc[name] || 0) + 1`: `undefined` falls back to `0` and counts to `1`;
a number increments; a truthy non-number concatenates, staying non-numeric. -/
def incrValue : Option JsValue → JsValue
  | none => .num 1
  | some (.num n) => .num (n + 1)
  | some .poisoned => .poisoned

/-- One step of the reduce: `acc[obj.name] = (acc[obj.name] || 0) + 1`.
Assigning to `"__proto__"` invokes the inherited accessor's setter, which
never creates an own property (and ignores non-object values), so the
accumulator is unchanged. -/
def stepCount (acc : List (String × JsValue)) (name : String) : List (String × JsValue) :=
  if name == "__proto__" then acc
  else setOwn acc name (incrValue (readForIncr acc name))

/-- The accumulator object built by `objects.reduce(...)`: own properties in
creation order. -/
def objectCounts (objects : List DetectedObject) : List (String × JsValue) :=
  (objects.map (fun o => o.name)).foldl stepCount []

/-- Whether a string is a canonical array-index property key, which
`Object.entries` enumerates first, in ascending numeric order. -/
def isArrayIndex (s : String) : Bool :=
  match strToNat? s with
  | some n => decide (n < 4294967295) && toString n == s
  | none => false

/-- Numeric value used to order array-index keys. -/
def keyVal (s : String) : Nat := (strToNat? s).getD 0

/-- Insertion step of the ascending sort of array-index entries. -/
def insertEntry (a : String × JsValue) :
    List (String × JsValue) → List (String × JsValue)
  | [] => [a]
  | b :: bs => if keyVal a.1 < keyVal b.1 then a :: b :: bs else b :: insertEntry a bs

/-- Ascending sort of array-index entries by numeric key value. -/
def sortEntries : List (String × JsValue) → List (String × JsValue)
  | [] => []
  | a :: as => insertEntry a (sortEntries as)

/-- `Object.entries(objectCounts)`: own entries with canonical array-index
keys first in ascending numeric order, then the remaining own entries in
creation order. -/
def entriesOf (acc : List (String × JsValue)) : List (String × JsValue) :=
  sortEntries (acc.filter (fun p => isArrayIndex p.1)) ++
    acc.filter (fun p => !isArrayIndex p.1)

/-- The number of objects whose `name` equals `name` exactly (case-sensitive):
the claim's notion of "a name occurring n times".  For a name that is not an
`Object.prototype` property name this agrees with the accumulator's count
(`getOwn_objectCounts` below). -/
def countName (objects : List DetectedObject) (name : String) : Nat :=
  (objects.filter (fun o => o.name == name)).length

/-- `count > 1 ? "{count} {name.toLowerCase()}s" : "a {name.toLowerCase()}"`.
A `poisoned` count is a string, and a JavaScript string-to-number `>`
comparison goes through `NaN`, so it takes the singular branch. -/
def renderCount (name : String) : JsValue → String
  | .num n =>
    if n > 1 then toString n ++ " " ++ jsToLower name ++ "s"
    else "a " ++ jsToLower name
  | .poisoned => "a " ++ jsToLower name

/-- The per-group phrases of the objects sentence, in `Object.entries` order. -/
def objectPhrases (objects : List DetectedObject) : List String :=
  (entriesOf (objectCounts objects)).map (fun p => renderCount p.1 p.2)

/-- The objects sentence. -/
def objectsFragment (objects : List DetectedObject) : String :=
  if objects.isEmpty then ""
  else if (objectPhrases objects).isEmpty then ""
  else "The image contains " ++ String.intercalate ", " (objectPhrases objects) ++ ". "

/-- The logos sentence. -/
def logosFragment (logos : List Logo) : String :=
  if logos.isEmpty then ""
  else
    "The image contains the following " ++
      (if logos.length == 1 then "logo" else "logos") ++ ": " ++
      String.intercalate ", " (logos.map (fun l => l.description)) ++ ". "

/-- Insertion step of the stable descending sort
`colorInfo.sort((a, b) => b.score - a.score)`: an element goes in front of
the first element whose score is not larger, so elements with equal scores
keep their original relative order (`Array.prototype.sort` is stable). -/
def insertColorDesc (c : ColorInfo) : List ColorInfo → List ColorInfo
  | [] => [c]
  | d :: ds => if c.score ≥ d.score then c :: d :: ds else d :: insertColorDesc c ds

/-- Stable descending sort of the dominant colors by score. -/
def sortColorsDesc : List ColorInfo → List ColorInfo
  | [] => []
  | c :: cs => insertColorDesc c (sortColorsDesc cs)

/-- The names of the given colors through `getColorName`.  The source
destructures `color.color` without a guard (`const { red, green, blue } =
color.color`), which throws when the field is absent, modelled by
`Except.error` at the first such entry. -/
def topColorNamesE : List ColorInfo → Except Unit (List String)
  | [] => .ok []
  | c :: cs =>
    match c.color with
    | none => .error ()
    | some rgb =>
      match topColorNamesE cs with
      | .error e => .error e
      | .ok rest => .ok (getColorName rgb.red rgb.green rgb.blue :: rest)

/-- The dominant-colors sentence: top three colors by score, each mapped
through `getColorName`. -/
def colorsFragment (colorInfo : List ColorInfo) : Except Unit String :=
  if colorInfo.isEmpty then .ok ""
  else
    match topColorNamesE ((sortColorsDesc colorInfo).take 3) with
    | .error e => .error e
    | .ok colorNames =>
      .ok ("The dominant colors in the image are " ++
        String.intercalate ", " colorNames ++ ". ")

/-- `text.replace(/\n/g, ' ')`: every newline becomes a space. -/
def replaceNewlines (s : String) : String :=
  ⟨s.data.map (fun c => if c = '\n' then ' ' else c)⟩

/-- The whitespace set of `String.prototype.trim`. -/
def isJsWhitespace (c : Char) : Bool :=
  c ∈ [' ', '\t', '\n', '\r', '\x0b', '\x0c', ' ', ' ',
       ' ', ' ', ' ', ' ', ' ', ' ', ' ',
       ' ', ' ', ' ', ' ', ' ', ' ', ' ',
       ' ', '　', '﻿']

/-- `String.prototype.trim`: strip leading and trailing whitespace. -/
def jsTrim (s : String) : String :=
  ⟨((s.data.dropWhile isJsWhitespace).reverse.dropWhile isJsWhitespace).reverse⟩

/-- `text.substring(0, n)`: the first `n` characters. -/
def strTake (s : String) (n : Nat) : String :=
  ⟨s.data.take n⟩

/-- `text` after `replace(/\n/g, ' ')` and `trim()`. -/
def processedText (d : String) : String :=
  jsTrim (replaceNewlines d)

/-- The text sentence: first text annotation only, newlines replaced by
spaces, trimmed, truncated to 100 characters plus `...` when longer. -/
def textFragment : List TextAnnotation → String
  | [] => ""
  | ta :: _ =>
    match ta.description with
    | none => ""
    | some d =>
      if d = "" then ""
      else if processedText d = "" then ""
      else if (processedText d).length > 100 then
        "The image contains text including: \"" ++ strTake (processedText d) 100 ++ "...\". "
      else
        "The image contains text that reads: \"" ++ processedText d ++ "\". "

/-- The descriptions of the first three web entities with score above 0.5. -/
def topWebEntities (webEntities : List WebEntity) : List String :=
  ((webEntities.filter (fun e => decide (e.score > decLit 5 10))).take 3).map
    (fun e => e.description)

/-- The web-entities sentence: entities with score above 0.5, first three. -/
def webFragment (webEntities : List WebEntity) : String :=
  if webEntities.isEmpty then ""
  else if (topWebEntities webEntities).isEmpty then ""
  else
    "The image is associated with " ++
      String.intercalate ", " (topWebEntities webEntities) ++ ". "

/-- The image-quality sentence. -/
def qualityFragment : Option Rat → String
  | none => ""
  | some quality =>
    if quality > decLit 8 10 then "This is a high-quality image. "
    else if quality < decLit 4 10 then "The image quality is relatively low. "
    else ""

/-- The body of the `try` block of `generateDescription`: the concatenation of
the ten fragments in source order, aborting with `Except.error` at the first
unguarded access of an absent field. -/
def buildDescription (v : VisionResponse) : Except Unit String :=
  match sceneFragment v.labelAnnotations with
  | .error e => .error e
  | .ok s1 =>
    let s2 := mainSubjectsFragment v.labelAnnotations
    match landmarkFragment v.landmarkAnnotations with
    | .error e => .error e
    | .ok s3 =>
      match colorsFragment v.colorInfo with
      | .error e => .error e
      | .ok s7 =>
        .ok (s1 ++ s2 ++ s3 ++ facesFragment v.faceAnnotations ++
          objectsFragment v.localizedObjectAnnotations ++
          logosFragment v.logoAnnotations ++
          s7 ++
          textFragment v.textAnnotations ++
          webFragment v.webEntities ++
          qualityFragment v.imageQualityAnnotation)

/-- The fallback returned when no fragment was emitted. -/
def noDataFallback : String :=
  "This image could not be analyzed in detail. Please try uploading a clearer image."

/-- The fallback returned by the `catch` block. -/
def errorFallback : String :=
  "An image containing various elements. The system couldn\x27t generate a more detailed description."

/-- `generateDescription(visionResponse)` of `src/api/analyze-image.js`. -/
def generateDescription (v : VisionResponse) : String :=
  match buildDescription v with
  | .error _ => errorFallback
  | .ok d => if d = "" then noDataFallback else d

/-! ### String helper lemmas -/

/-- The characters of an appended string. -/
theorem strData_append (a b : String) : (a ++ b).data = a.data ++ b.data := rfl

/-- A string with no characters is the empty string. -/
theorem str_eq_empty_of_data_eq_nil {s : String} (h : s.data = []) : s = "" := by
  cases s
  simp_all

/-- A string ends with a space: the property every non-empty emitted fragment
of `buildDescription` has, and the no-data fallback does not. -/
def endsWithSpace (s : String) : Prop :=
  s.data = [] ∨ s.data.getLast? = some ' '

/-- A string whose final character is a space ends with a space, whatever is
appended in front of it. -/
theorem endsWithSpace_append_right (a : String) {b : String}
    (hb : b.data.getLast? = some ' ') : endsWithSpace (a ++ b) :=
  Or.inr (by rw [strData_append, List.getLast?_append, hb]; rfl)

/-- Appending preserves `endsWithSpace`. -/
theorem endsWithSpace_append {a b : String} (ha : endsWithSpace a)
    (hb : endsWithSpace b) : endsWithSpace (a ++ b) := by
  rcases hb with hb | hb
  · rcases ha with ha | ha
    · exact Or.inl (by rw [strData_append, ha, hb]; rfl)
    · exact Or.inr (by rw [strData_append, List.getLast?_append, hb, ha]; rfl)
  · exact endsWithSpace_append_right a hb

/-- The scene fragment, when it is produced, ends with a space (or is empty). -/
theorem endsWithSpace_sceneFragment {ls : List Label} {s : String}
    (h : sceneFragment ls = .ok s) : endsWithSpace s := by
  unfold sceneFragment at h
  split at h
  · exact Except.noConfusion h
  · cases h; exact Or.inl rfl
  · cases h; exact endsWithSpace_append_right _ (by decide)

/-- The main-subjects fragment ends with a space (or is empty). -/
theorem endsWithSpace_mainSubjectsFragment (ls : List Label) :
    endsWithSpace (mainSubjectsFragment ls) := by
  unfold mainSubjectsFragment
  split
  · exact Or.inl rfl
  · exact endsWithSpace_append_right _ (by decide)

/-- The landmark fragment, when it is produced, ends with a space (or is
empty). -/
theorem endsWithSpace_landmarkFragment {lms : List Landmark} {s : String}
    (h : landmarkFragment lms = .ok s) : endsWithSpace s := by
  unfold landmarkFragment at h
  split at h
  · cases h; exact Or.inl rfl
  · split at h
    · cases h; exact endsWithSpace_append_right _ (by decide)
    · split at h
      · exact Except.noConfusion h
      · cases h; exact endsWithSpace_append_right _ (by decide)

/-- The faces fragment ends with a space (or is empty). -/
theorem endsWithSpace_facesFragment (faces : List Face) :
    endsWithSpace (facesFragment faces) := by
  unfold facesFragment
  split
  · exact Or.inl rfl
  · refine endsWithSpace_append (b := emotionSentence faces) ?_ ?_
    · exact endsWithSpace_append_right _ (by decide)
    · unfold emotionSentence
      split
      · exact Or.inl rfl
      · exact endsWithSpace_append_right _ (by decide)

/-- The objects fragment ends with a space (or is empty). -/
theorem endsWithSpace_objectsFragment (objects : List DetectedObject) :
    endsWithSpace (objectsFragment objects) := by
  unfold objectsFragment
  split
  · exact Or.inl rfl
  · split
    · exact Or.inl rfl
    · exact endsWithSpace_append_right _ (by decide)

/-- The logos fragment ends with a space (or is empty). -/
theorem endsWithSpace_logosFragment (logos : List Logo) :
    endsWithSpace (logosFragment logos) := by
  unfold logosFragment
  split
  · exact Or.inl rfl
  · exact endsWithSpace_append_right _ (by decide)

/-- The colors fragment, when it is produced, ends with a space (or is
empty). -/
theorem endsWithSpace_colorsFragment {colorInfo : List ColorInfo} {s : String}
    (h : colorsFragment colorInfo = .ok s) : endsWithSpace s := by
  unfold colorsFragment at h
  split at h
  · cases h; exact Or.inl rfl
  · split at h
    · exact Except.noConfusion h
    · cases h; exact endsWithSpace_append_right _ (by decide)

/-- The text fragment ends with a space (or is empty). -/
theorem endsWithSpace_textFragment (tas : List TextAnnotation) :
    endsWithSpace (textFragment tas) := by
  unfold textFragment
  split
  · exact Or.inl rfl
  · split
    · exact Or.inl rfl
    · split
      · exact Or.inl rfl
      · split
        · exact Or.inl rfl
        · split
          · exact endsWithSpace_append_right _ (by decide)
          · exact endsWithSpace_append_right _ (by decide)

/-- The web fragment ends with a space (or is empty). -/
theorem endsWithSpace_webFragment (webEntities : List WebEntity) :
    endsWithSpace (webFragment webEntities) := by
  unfold webFragment
  split
  · exact Or.inl rfl
  · split
    · exact Or.inl rfl
    · exact endsWithSpace_append_right _ (by decide)

/-- The quality fragment ends with a space (or is empty). -/
theorem endsWithSpace_qualityFragment (q : Option Rat) :
    endsWithSpace (qualityFragment q) := by
  unfold qualityFragment
  split
  · exact Or.inl rfl
  · split
    · exact Or.inr (by decide)
    · split
      · exact Or.inr (by decide)
      · exact Or.inl rfl

/-- Whatever `buildDescription` produces ends with a space (or is empty). -/
theorem endsWithSpace_buildDescription {v : VisionResponse} {s : String}
    (h : buildDescription v = .ok s) : endsWithSpace s := by
  unfold buildDescription at h
  split at h
  · exact Except.noConfusion h
  · split at h
    · exact Except.noConfusion h
    · split at h
      · exact Except.noConfusion h
      · cases h
        refine endsWithSpace_append (endsWithSpace_append (endsWithSpace_append
          (endsWithSpace_append (endsWithSpace_append (endsWithSpace_append
          (endsWithSpace_append (endsWithSpace_append (endsWithSpace_append
          (endsWithSpace_sceneFragment (by assumption))
          (endsWithSpace_mainSubjectsFragment _))
          (endsWithSpace_landmarkFragment (by assumption)))
          (endsWithSpace_facesFragment _))
          (endsWithSpace_objectsFragment _))
          (endsWithSpace_logosFragment _))
          (endsWithSpace_colorsFragment (by assumption)))
          (endsWithSpace_textFragment _))
          (endsWithSpace_webFragment _))
          (endsWithSpace_qualityFragment _)

/-! ### Membership helper lemmas -/

/-- Writing a key makes it readable. -/
theorem getOwn_setOwn_self (acc : List (String × JsValue)) (k : String) (v : JsValue) :
    getOwn (setOwn acc k v) k = some v := by
  induction acc with
  | nil => simp [setOwn, getOwn]
  | cons p ps ih =>
    unfold setOwn
    by_cases hp : (p.1 == k) = true
    · rw [if_pos hp]
      simp [getOwn, hp]
    · rw [if_neg hp]
      simp [getOwn, hp, ih]

/-- Writing one key does not change the reads of another. -/
theorem getOwn_setOwn_ne (acc : List (String × JsValue)) {k k' : String}
    (v : JsValue) (h : k' ≠ k) : getOwn (setOwn acc k v) k' = getOwn acc k' := by
  induction acc with
  | nil =>
    simp [setOwn, getOwn]
    intro heq
    exact absurd heq.symm h
  | cons p ps ih =>
    unfold setOwn
    by_cases hp : (p.1 == k) = true
    · rw [if_pos hp]
      have hk : p.1 = k := eq_of_beq hp
      have hne : (p.1 == k') = false := by
        rw [hk]
        exact beq_eq_false_iff_ne.2 (fun heq => h heq.symm)
      simp [getOwn, hne]
    · rw [if_neg hp]
      by_cases hq : (p.1 == k') = true
      · simp [getOwn, hq]
      · simp [getOwn, hq, ih]

/-- A successful read locates an own entry. -/
theorem getOwn_some_mem {acc : List (String × JsValue)} {k : String} {v : JsValue}
    (h : getOwn acc k = some v) : (k, v) ∈ acc := by
  induction acc with
  | nil => exact Option.noConfusion h
  | cons p ps ih =>
    unfold getOwn at h
    by_cases hp : (p.1 == k) = true
    · rw [if_pos hp] at h
      have hk : p.1 = k := eq_of_beq hp
      have hv : p.2 = v := Option.some.inj h
      exact hk ▸ hv ▸ (Prod.mk.eta (p := p)) ▸ List.mem_cons_self _ _
    · rw [if_neg hp] at h
      exact List.mem_cons_of_mem _ (ih h)

/-- Membership in the insertion step of the entry sort. -/
theorem mem_insertEntry {x a : String × JsValue} :
    ∀ l : List (String × JsValue), x ∈ insertEntry a l ↔ x = a ∨ x ∈ l := by
  intro l
  induction l with
  | nil => simp [insertEntry]
  | cons b bs ih =>
    unfold insertEntry
    split
    · simp
    · simp only [List.mem_cons, ih]
      tauto

/-- The entry sort preserves membership. -/
theorem mem_sortEntries {x : String × JsValue} :
    ∀ {l : List (String × JsValue)}, x ∈ l → x ∈ sortEntries l := by
  intro l
  induction l with
  | nil => intro h; cases h
  | cons a as ih =>
    intro h
    unfold sortEntries
    rcases List.mem_cons.1 h with rfl | h'
    · exact (mem_insertEntry _).2 (Or.inl rfl)
    · exact (mem_insertEntry _).2 (Or.inr (ih h'))

/-- Every own entry of the accumulator appears among `Object.entries`. -/
theorem mem_entriesOf {p : String × JsValue} {acc : List (String × JsValue)}
    (h : p ∈ acc) : p ∈ entriesOf acc := by
  unfold entriesOf
  by_cases hidx : isArrayIndex p.1 = true
  · exact List.mem_append.2 (Or.inl (mem_sortEntries (List.mem_filter.2 ⟨h, hidx⟩)))
  · refine List.mem_append.2 (Or.inr (List.mem_filter.2 ⟨h, ?_⟩))
    simp [hidx]

/-- `readForIncr` coincides with the own-property read for a name that is not
an `Object.prototype` property name. -/
theorem readForIncr_eq_getOwn (acc : List (String × JsValue)) {name : String}
    (h2 : protoDataKeys.contains name = false) :
    readForIncr acc name = getOwn acc name := by
  have hnm : name ∉ protoDataKeys := by simpa using h2
  unfold readForIncr
  cases getOwn acc name <;> simp [hnm]

/-- Occurrence count of a name among the mapped names equals `countName`. -/
theorem countOcc_map_name (objects : List DetectedObject) (name : String) :
    ((objects.map (fun o => o.name)).filter (fun m => m == name)).length =
      countName objects name := by
  unfold countName
  induction objects with
  | nil => rfl
  | cons o os ih =>
    simp only [List.map_cons, List.filter_cons]
    cases h : (o.name == name) <;> simp [h, ih]

/-- How the accumulator's entry for a non-prototype name evolves along the
fold: it accumulates exactly the number of occurrences. -/
theorem getOwn_foldl {name : String} (h1 : name ≠ "__proto__")
    (h2 : protoDataKeys.contains name = false) :
    ∀ (names : List String) (acc : List (String × JsValue)),
      getOwn (names.foldl stepCount acc) name =
        match getOwn acc name with
        | none =>
          if (names.filter (fun m => m == name)).length = 0 then none
          else some (.num ((names.filter (fun m => m == name)).length))
        | some (.num k) =>
          some (.num (k + (names.filter (fun m => m == name)).length))
        | some .poisoned => some .poisoned := by
  intro names
  induction names with
  | nil =>
    intro acc
    cases hg : getOwn acc name with
    | none => simp [List.foldl, hg]
    | some v => cases v <;> simp [List.foldl, hg]
  | cons m ms ih =>
    intro acc
    rw [List.foldl_cons]
    by_cases hm : (m == name) = true
    · have hmeq : m = name := eq_of_beq hm
      subst hmeq
      have hstep : stepCount acc m = setOwn acc m (incrValue (getOwn acc m)) := by
        unfold stepCount
        rw [if_neg (by simp [h1]), readForIncr_eq_getOwn acc h2]
      rw [hstep, ih]
      rw [getOwn_setOwn_self]
      cases hg : getOwn acc m with
      | none =>
        simp only [hg, incrValue, List.filter_cons, hm]
        simp [Nat.add_comm]
      | some v =>
        cases v with
        | num k =>
          simp only [hg, incrValue, List.filter_cons, hm]
          simp [Nat.add_assoc, Nat.add_comm]
        | poisoned => simp [hg, incrValue, List.filter_cons, hm]
    · have hacc : getOwn (stepCount acc m) name = getOwn acc name := by
        unfold stepCount
        split
        · rfl
        · exact getOwn_setOwn_ne acc _ (fun heq => by simp [heq] at hm)
      rw [ih, hacc]
      simp only [List.filter_cons, hm]
      rfl

/-- For a non-prototype name occurring in the objects list, the accumulator
holds exactly its occurrence count. -/
theorem getOwn_objectCounts (objects : List DetectedObject) (name : String)
    (h1 : name ≠ "__proto__") (h2 : protoDataKeys.contains name = false)
    (hpos : 0 < countName objects name) :
    getOwn (objectCounts objects) name = some (.num (countName objects name)) := by
  unfold objectCounts
  rw [getOwn_foldl h1 h2 (objects.map (fun o => o.name)) []]
  show (if ((objects.map (fun o => o.name)).filter (fun m => m == name)).length = 0
    then none else some (JsValue.num _)) = _
  rw [countOcc_map_name, if_neg (by omega)]

/-- The phrase of any non-prototype object name occurring in the list is
emitted. -/
theorem objectPhrase_mem {objects : List DetectedObject} {name : String}
    (h1 : name ≠ "__proto__") (h2 : protoDataKeys.contains name = false)
    (hpos : 0 < countName objects name) :
    renderCount name (JsValue.num (countName objects name)) ∈ objectPhrases objects := by
  have hmem := getOwn_some_mem (getOwn_objectCounts objects name h1 h2 hpos)
  unfold objectPhrases
  exact List.mem_map_of_mem _ (mem_entriesOf hmem)

/-- Replacing newlines by spaces leaves no newline behind. -/
theorem newline_not_mem_replaceNewlines (s : String) :
    '\n' ∉ (replaceNewlines s).data := by
  unfold replaceNewlines
  intro hmem
  rcases List.mem_map.1 hmem with ⟨a, _, ha⟩
  by_cases h : a = '\n'
  · rw [if_pos h] at ha
    exact absurd ha (by decide)
  · rw [if_neg h] at ha
    exact h ha

/-- Trimming only removes characters; stated for the processed text of the
text fragment. -/
theorem mem_processedText {c : Char} {d : String}
    (h : c ∈ (processedText d).data) : c ∈ (replaceNewlines d).data := by
  unfold processedText jsTrim at h
  have h1 := List.mem_reverse.1 h
  have h2 := (List.dropWhile_sublist _).subset h1
  have h3 := List.mem_reverse.1 h2
  exact (List.dropWhile_sublist _).subset h3

/-- Trimming only removes characters. -/
theorem mem_jsTrim {c : Char} {s : String} (h : c ∈ (jsTrim s).data) :
    c ∈ s.data := by
  unfold jsTrim at h
  have h1 := List.mem_reverse.1 h
  have h2 := (List.dropWhile_sublist _).subset h1
  have h3 := List.mem_reverse.1 h2
  exact (List.dropWhile_sublist _).subset h3

/-- No newline ever appears in the emitted text fragment, on any input: the
fragment is built from newline-free literals and the processed text, whose
newlines were replaced by spaces. -/
theorem newline_not_mem_textFragment (tas : List TextAnnotation) :
    '\n' ∉ (textFragment tas).data := by
  unfold textFragment
  split
  · decide
  · split
    · decide
    · split
      · decide
      · split
        · decide
        · split
          · intro hmem
            rw [strData_append, strData_append] at hmem
            rcases List.mem_append.1 hmem with hmem | hmem
            · rcases List.mem_append.1 hmem with hmem | hmem
              · exact absurd hmem (by decide)
              · exact newline_not_mem_replaceNewlines _
                  (mem_processedText ((List.take_sublist _ _).subset hmem))
            · exact absurd hmem (by decide)
          · intro hmem
            rw [strData_append, strData_append] at hmem
            rcases List.mem_append.1 hmem with hmem | hmem
            · rcases List.mem_append.1 hmem with hmem | hmem
              · exact absurd hmem (by decide)
              · exact newline_not_mem_replaceNewlines _ (mem_processedText hmem)
            · exact absurd hmem (by decide)

/-! ### Claim theorems -/

/-- C4: `getColorName` evaluates its checks top-to-bottom with first match
winning, and on the spec's test vectors returns (255,0,0) ↦ "red",
(255,255,255) ↦ "white", (0,0,0) ↦ "black", (128,128,128) ↦ "gray",
(160,100,40) ↦ "brown", and (10,250,10) ↦ "green" (not "lime"). -/
theorem getColorName_spec_vectors :
    getColorName 255 0 0 = "red" ∧
    getColorName 255 255 255 = "white" ∧
    getColorName 0 0 0 = "black" ∧
    getColorName 128 128 128 = "gray" ∧
    getColorName 160 100 40 = "brown" ∧
    getColorName 10 250 10 = "green" ∧
    getColorName 10 250 10 ≠ "lime" := by
  decide

/-- C5: for `faces = [{joy: LIKELY}, {joy: VERY_LIKELY, sorrow: LIKELY}]` and
all other fields absent, the person-count sentence uses "are 2 people", the
emotion tally yields joy = 2 and sorrow = 1 (one face counting toward both),
and the emotion clause reads "2 appear to be happy, 1 appears to be sorrow"
with joy relabelled "happy" and a singular verb exactly for count 1. -/
theorem faces_example_description :
    joyCount [⟨.LIKELY, .UNKNOWN, .UNKNOWN, .UNKNOWN⟩,
              ⟨.VERY_LIKELY, .LIKELY, .UNKNOWN, .UNKNOWN⟩] = 2 ∧
    sorrowCount [⟨.LIKELY, .UNKNOWN, .UNKNOWN, .UNKNOWN⟩,
                 ⟨.VERY_LIKELY, .LIKELY, .UNKNOWN, .UNKNOWN⟩] = 1 ∧
    emotionClauses [⟨.LIKELY, .UNKNOWN, .UNKNOWN, .UNKNOWN⟩,
                    ⟨.VERY_LIKELY, .LIKELY, .UNKNOWN, .UNKNOWN⟩] =
      ["2 appear to be happy", "1 appears to be sorrow"] ∧
    generateDescription
      { faceAnnotations := [⟨.LIKELY, .UNKNOWN, .UNKNOWN, .UNKNOWN⟩,
                            ⟨.VERY_LIKELY, .LIKELY, .UNKNOWN, .UNKNOWN⟩] } =
      "There are 2 people in the image. Of these, 2 appear to be happy, 1 appears to be sorrow. " := by
  refine ⟨by decide, by decide, by decide, by decide⟩

/-- C7: for `labels = [{cat, 0.9}, {dog, 0.8}]` and every other field absent,
the output is exactly `"The image shows cat, dog. "`: no scene-context
sentence is emitted (neither label is in the fixed context set) and the
main-subjects sentence joins the labels' descriptions with ", ". -/
theorem labels_example_description :
    generateDescription
      { labelAnnotations := [{ description := some "cat", score := decLit 9 10 },
                             { description := some "dog", score := decLit 8 10 }] } =
      "The image shows cat, dog. " ∧
    sceneFragment [{ description := some "cat", score := decLit 9 10 },
                   { description := some "dog", score := decLit 8 10 }] = .ok "" := by
  refine ⟨by decide, rfl⟩

/-- C10: in the objects fragment, every emitted name is lowercased before
display, so `objects = [{name: "Dog"}, {name: "dog"}]` produces the phrase
"a dog, a dog" (two case-sensitive groups of count 1, both displayed in
lowercase), not "a Dog, a dog" and not "2 dogs". -/
theorem objects_lowercased_display :
    generateDescription { localizedObjectAnnotations := [{ name := "Dog" }, { name := "dog" }] } =
      "The image contains a dog, a dog. " ∧
    generateDescription { localizedObjectAnnotations := [{ name := "Dog" }, { name := "dog" }] } ≠
      "The image contains a Dog, a dog. " ∧
    generateDescription { localizedObjectAnnotations := [{ name := "Dog" }, { name := "dog" }] } ≠
      "The image contains 2 dogs. " := by
  decide

/-- C1 counterexample: an input with a present optional section (a web entity
whose score is 0.3 ≤ 0.5) on which `generateDescription` nevertheless returns
the no-data fallback, refuting "for every input in which at least one optional
section is present the fallback is not returned". -/
theorem webEntities_low_score_fallback :
    generateDescription
      { webEntities := [{ description := "Eiffel Tower", score := decLit 3 10 }] } =
      noDataFallback ∧
    ({ webEntities := [{ description := "Eiffel Tower", score := decLit 3 10 }] }
      : VisionResponse).webEntities ≠ [] := by
  refine ⟨by decide, by decide⟩

/-- C2 counterexample: a single object named "Dog" is rendered "a dog", not
"a Dog", refuting the claim that a name occurring once is rendered with the
name as given. -/
theorem object_Dog_rendered_lowercase :
    objectPhrases [{ name := "Dog" }] = ["a dog"] ∧
    objectPhrases [{ name := "Dog" }] ≠ ["a Dog"] := by
  decide

/-- C6 counterexample: a label description containing a newline reaches the
output verbatim, refuting "no newline character ever appears in the output of
`generateDescription`". -/
theorem newline_in_output_via_label :
    generateDescription { labelAnnotations := [{ description := some "a\nb" }] } =
      "The image shows a\nb. " ∧
    '\n' ∈ (generateDescription { labelAnnotations := [{ description := some "a\nb" }] }).data := by
  refine ⟨by decide, by decide⟩

/-- C3: `generateDescription` never propagates an exception: for every input
it returns a string, and whenever the fragment composition faults on a
malformed annotation shape the result is exactly the fixed error fallback —
never a partial concatenation of the fragments built before the fault. -/
theorem generateDescription_all_or_fallback (v : VisionResponse) :
    (∀ e : Unit, buildDescription v = Except.error e →
      generateDescription v = errorFallback) ∧
    (∀ s : String, buildDescription v = Except.ok s →
      generateDescription v = if s = "" then noDataFallback else s) := by
  constructor
  · intro e h
    unfold generateDescription
    rw [h]
  · intro s h
    unfold generateDescription
    rw [h]

/-- Witness for C3: a malformed input whose landmark lacks `latLng` faults
while composing fragments after the label fragments were already built, and
the output is exactly the error fallback; a well-formed input returns the
composed description. -/
theorem generateDescription_all_or_fallback_witness :
    generateDescription
      { labelAnnotations := [{ description := some "cat" }],
        landmarkAnnotations := [{ description := "X", locations := [{ latLng := none }] }] } =
      errorFallback ∧
    generateDescription { labelAnnotations := [{ description := some "cat" }] } =
      "The image shows cat. " := by
  constructor
  · exact (generateDescription_all_or_fallback _).1 () (by rfl)
  · have h := (generateDescription_all_or_fallback
      { labelAnnotations := [{ description := some "cat" }] }).2
      "The image shows cat. " (by rfl)
    rw [h]
    decide

/-- C8: the landmark fragment uses only the first landmark and, when it
carries coordinates, formats them with absolute values and hemisphere words
chosen by sign (lat ≥ 0 ↦ North else South, lng ≥ 0 ↦ East else West); in
particular lat = -33.8, lng = 151.2 renders as "33.8° South, 151.2° East". -/
theorem landmarkFragment_first_and_hemispheres (lm : Landmark) (rest : List Landmark)
    (ll : LatLng) (lrest : List Location)
    (h : lm.locations = { latLng := some ll } :: lrest) :
    landmarkFragment (lm :: rest) = landmarkFragment [lm] ∧
    landmarkFragment (lm :: rest) =
      Except.ok ("The image features " ++ lm.description ++
        ", located at approximately " ++ coordText ll.latitude ll.longitude ++ ". ") ∧
    (∀ lat lng : Rat, coordText lat lng =
      ratToStr (mathAbs lat) ++ "° " ++ (if lat ≥ 0 then "North" else "South") ++ ", " ++
        ratToStr (mathAbs lng) ++ "° " ++ (if lng ≥ 0 then "East" else "West")) ∧
    coordText (-33.8) 151.2 = "33.8° South, 151.2° East" := by
  refine ⟨rfl, ?_, fun _ _ => rfl, ?_⟩
  · obtain ⟨desc, locs⟩ := lm
    dsimp only at h
    subst h
    rfl
  · have h1 : (-33.8 : Rat) = mkRat (-169) 5 := by
      rw [Rat.mkRat_eq_divInt, Rat.divInt_eq_div]; norm_num
    have h2 : (151.2 : Rat) = mkRat 756 5 := by
      rw [Rat.mkRat_eq_divInt, Rat.divInt_eq_div]; norm_num
    rw [h1, h2]
    decide

/-- Witness for C8, at a landmark with lat = -33.8 and lng = 151.2. -/
theorem landmarkFragment_first_and_hemispheres_witness :
    coordText (-33.8) 151.2 = "33.8° South, 151.2° East" :=
  (landmarkFragment_first_and_hemispheres
    { description := "Sydney Opera House",
      locations := [{ latLng := some { latitude := mkRat (-169) 5, longitude := mkRat 756 5 } }] }
    [] { latitude := mkRat (-169) 5, longitude := mkRat 756 5 } [] rfl).2.2.2

/-- The fixed color vocabulary of `getColorName`. -/
def colorNameTable : List String :=
  ["white", "black", "red", "green", "blue", "yellow", "magenta", "cyan",
   "orange", "purple", "lime", "teal", "pink", "gold", "dark gray", "gray",
   "light gray", "brown", "mixed"]

/-- Both branches of a conditional that lie in a list put the conditional in
the list. -/
theorem ite_mem_of {c : Prop} [Decidable c] {a b : String} {S : List String}
    (ha : a ∈ S) (hb : b ∈ S) : (if c then a else b) ∈ S := by
  split
  · exact ha
  · exact hb

/-- C9: `getColorName` is total over 8-bit RGB triples: it always returns one
of the fixed color names, with "mixed" as the final catch-all branch. -/
theorem getColorName_total (red green blue : Rat)
    (hr0 : 0 ≤ red) (hr1 : red ≤ 255) (hg0 : 0 ≤ green) (hg1 : green ≤ 255)
    (hb0 : 0 ≤ blue) (hb1 : blue ≤ 255) :
    getColorName red green blue ∈ colorNameTable := by
  unfold getColorName
  repeat' apply ite_mem_of
  all_goals decide

/-- Witness for C9 at the triple (128, 128, 128). -/
theorem getColorName_total_witness :
    getColorName 128 128 128 ∈ colorNameTable :=
  getColorName_total 128 128 128 (by decide) (by decide) (by decide) (by decide)
    (by decide) (by decide)

/-- C1 (amended): `generateDescription` returns the no-data fallback iff the
composed description is empty (no fragment was emitted); the all-fields-absent
input yields the fallback; but a present optional section can still emit no
fragment (for example web entities all with score ≤ 0.5), in which case the
fallback is also returned. -/
theorem fallback_iff_no_fragment (v : VisionResponse) (s : String)
    (h : buildDescription v = Except.ok s) :
    (generateDescription v = noDataFallback ↔ s = "") ∧
    generateDescription {} = noDataFallback ∧
    generateDescription
      { webEntities := [{ description := "Eiffel Tower", score := decLit 3 10 }] } =
      noDataFallback := by
  refine ⟨⟨?_, ?_⟩, by decide, by decide⟩
  · intro hfb
    by_contra hs
    have hgen : generateDescription v = s := by
      unfold generateDescription
      rw [h]
      exact if_neg hs
    rw [hgen] at hfb
    rcases endsWithSpace_buildDescription h with h0 | h0
    · exact hs (str_eq_empty_of_data_eq_nil h0)
    · rw [hfb] at h0
      exact absurd h0 (by decide)
  · intro hs
    subst hs
    unfold generateDescription
    rw [h]
    rfl

/-- Witness for C1, at the all-fields-absent input. -/
theorem fallback_iff_no_fragment_witness :
    generateDescription {} = noDataFallback ↔ ("" : String) = "" :=
  (fallback_iff_no_fragment {} "" rfl).1

/-- C2 (amended): object grouping is case-sensitive exact string match on the
object name — "Dog", "dog" and "Cat" form three groups of count 1 each — and
for every ASCII name that is not an `Object.prototype` property name
(`__proto__`, `constructor`, `toString`, …, which hit the accumulator
object's inherited properties and render differently, as the last two
concrete conjuncts show), a name occurring once is rendered "a " followed by
the lowercased name, while a name occurring n > 1 times is rendered "{n} "
followed by the lowercased name with a plain appended "s". -/
theorem object_grouping_case_sensitive :
    (objectPhrases [{ name := "Dog" }, { name := "dog" }, { name := "Cat" }] =
      ["a dog", "a dog", "a cat"] ∧
     countName [{ name := "Dog" }, { name := "dog" }, { name := "Cat" }] "Dog" = 1 ∧
     countName [{ name := "Dog" }, { name := "dog" }, { name := "Cat" }] "dog" = 1 ∧
     countName [{ name := "Dog" }, { name := "dog" }, { name := "Cat" }] "Cat" = 1 ∧
     generateDescription
       { localizedObjectAnnotations := [{ name := "Dog" }, { name := "dog" }, { name := "Cat" }] } =
       "The image contains a dog, a dog, a cat. " ∧
     objectPhrases [{ name := "__proto__" }] = [] ∧
     objectPhrases [{ name := "toString" }, { name := "toString" }] = ["a tostring"]) ∧
    ∀ (objects : List DetectedObject) (name : String),
      name ∈ objects.map (fun o => o.name) →
      name ≠ "__proto__" →
      protoDataKeys.contains name = false →
      (∀ c ∈ name.data, c.toNat < 128) →
      (countName objects name = 1 →
        ("a " ++ jsToLower name) ∈ objectPhrases objects) ∧
      (countName objects name > 1 →
        (toString (countName objects name) ++ " " ++ jsToLower name ++ "s") ∈
          objectPhrases objects) := by
  refine ⟨⟨by decide, by decide, by decide, by decide, by decide, by decide, by decide⟩, ?_⟩
  intro objects name hmem h1 h2 _hascii
  have hpos : 0 < countName objects name := by
    rcases List.mem_map.1 hmem with ⟨o, ho, rfl⟩
    exact List.length_pos_of_mem (List.mem_filter.2 ⟨ho, by simp⟩)
  constructor
  · intro hc
    have hp := objectPhrase_mem h1 h2 hpos
    rw [hc] at hp
    simpa [renderCount] using hp
  · intro hc
    have hp := objectPhrase_mem h1 h2 hpos
    have hr : renderCount name (JsValue.num (countName objects name)) =
        toString (countName objects name) ++ " " ++ jsToLower name ++ "s" := by
      show (if countName objects name > 1 then
          toString (countName objects name) ++ " " ++ jsToLower name ++ "s"
        else "a " ++ jsToLower name) = _
      rw [if_pos hc]
    rw [hr] at hp
    exact hp

/-- Witness for C2, at a singleton name and at a duplicated name. -/
theorem object_grouping_case_sensitive_witness :
    ("a cat" : String) ∈ objectPhrases [{ name := "Cat" }] ∧
    ("2 cups" : String) ∈ objectPhrases [{ name := "Cup" }, { name := "Cup" }] := by
  constructor
  · exact (object_grouping_case_sensitive.2 [{ name := "Cat" }] "Cat"
      (by decide) (by decide) (by decide) (by decide)).1 (by decide)
  · exact (object_grouping_case_sensitive.2 [{ name := "Cup" }, { name := "Cup" }] "Cup"
      (by decide) (by decide) (by decide) (by decide)).2 (by decide)

/-- C6 (amended): when the first text annotation's full text, after replacing
newlines with spaces and trimming, is longer than 100 characters, the emitted
excerpt is exactly the first 100 characters of the processed text followed by
the 3-character marker "..."; and on every input no newline appears in the
emitted text fragment (newlines from other sections, such as label
descriptions, can still reach the output, as the counterexample shows). -/
theorem text_truncation_no_newline (ta : TextAnnotation) (rest : List TextAnnotation)
    (d : String) (hd : ta.description = some d)
    (hlen : (processedText d).length > 100) :
    textFragment (ta :: rest) =
      "The image contains text including: \"" ++ strTake (processedText d) 100 ++ "...\". " ∧
    (strTake (processedText d) 100).data = (processedText d).data.take 100 ∧
    (strTake (processedText d) 100).length = 100 ∧
    ("..." : String).length = 3 ∧
    ∀ tas : List TextAnnotation, '\n' ∉ (textFragment tas).data := by
  have hdne : d ≠ "" := by
    rintro rfl
    revert hlen
    decide
  have hpne : processedText d ≠ "" := by
    intro hp
    rw [hp] at hlen
    revert hlen
    decide
  have heq : textFragment (ta :: rest) =
      "The image contains text including: \"" ++ strTake (processedText d) 100 ++ "...\". " := by
    obtain ⟨odesc⟩ := ta
    dsimp only at hd
    subst hd
    show (if d = "" then "" else if processedText d = "" then ""
      else if (processedText d).length > 100 then
        "The image contains text including: \"" ++ strTake (processedText d) 100 ++ "...\". "
      else "The image contains text that reads: \"" ++ processedText d ++ "\". ") = _
    rw [if_neg hdne, if_neg hpne, if_pos hlen]
  refine ⟨heq, rfl, ?_, rfl, newline_not_mem_textFragment⟩
  have hlen' : 100 < (processedText d).data.length := hlen
  show (List.take 100 (processedText d).data).length = 100
  rw [List.length_take]
  omega

/-- Witness for C6, at a 101-character text annotation. -/
theorem text_truncation_no_newline_witness :
    textFragment [{ description := some (String.mk (List.replicate 101 'a')) }] =
      "The image contains text including: \"" ++
        strTake (processedText (String.mk (List.replicate 101 'a'))) 100 ++ "...\". " ∧
    (strTake (processedText (String.mk (List.replicate 101 'a'))) 100).length = 100 := by
  have h := text_truncation_no_newline
    { description := some (String.mk (List.replicate 101 'a')) } []
    (String.mk (List.replicate 101 'a')) rfl (by decide)
  exact ⟨h.1, h.2.2.1⟩
